import Mathlib

/-
Verification development for the llamaburn effect-detection adapters.

The repository consists of three Python command-line scripts:
  A = src/scripts/effect_detection/fx_encoder_detect.py
  B = src/scripts/effect_detection/llm2fx_detect.py
  C = src/scripts/effect_detection/openamp_detect.py
Each script parses argv, checks the audio path exists, calls an external
backend, normalizes the backend result into a canonical JSON document,
prints exactly one JSON document and exits 0 on success and 1 on failure.

Modelling conventions:
  - JSON-like values (the backend results and the printed documents) are
    the inductive type J below.  Object keys are strings, kept in
    insertion order, matching what json.dumps can serialize.
  - Python float values are modelled as exact rationals (no rounding is
    performed anywhere in the scripts); the int/float distinction is kept
    because json.dumps prints them differently and the scripts coerce
    with float() in some places and not in other places.
  - Exceptions are modelled with Except PyErr; PyErr distinguishes
    ImportError from every other exception because the scripts install
    distinct handlers for the two.  Exception messages of builtin errors
    are modelled by the name of the exception type; the scripts only
    ever put str of the exception into the error document.
  - The external backend calls (from_pretrained plus analyze and the
    librosa decode) are oracles supplied in the environment record; the
    loading call and the analysis call are collapsed into one oracle per
    script because both sit inside the same try block and are covered by
    the same two exception handlers, so no observable behaviour depends
    on which of the two raised.
  - Printing to stdout is modelled by the list of documents a run emits,
    in order; sys.exit codes are the exitCode field.
-/

/-- JSON-like values: the shape of backend results and emitted documents. -/
inductive J where
  | null : J
  | bool : Bool → J
  | int : Int → J
  | float : ℚ → J
  | str : String → J
  | arr : List J → J
  | obj : List (String × J) → J

/-- Field lookup on a JSON object; none on a non-object or a missing key. -/
def getField (j : J) (k : String) : Option J :=
  match j with
  | .obj fs => fs.lookup k
  | _ => none

/-- Whether a JSON value is an object carrying the key `k`. -/
def hasKey (j : J) (k : String) : Bool :=
  match j with
  | .obj fs => fs.any (fun p => p.1 == k)
  | _ => false

/-- Whether a JSON value is a string. -/
def isStr : J → Bool
  | .str _ => true
  | _ => false

/-- Whether a JSON value is a number (JSON does not separate int from float). -/
def isNumber : J → Bool
  | .int _ => true
  | .float _ => true
  | _ => false

/-- Whether a JSON value is specifically a Python float. -/
def isFloat : J → Bool
  | .float _ => true
  | _ => false

/-- Python exceptions, split the way the scripts handle them: every script
has an `except ImportError` arm before a catch-all `except Exception` arm. -/
inductive PyErr where
  | importError : String → PyErr
  | other : String → PyErr

/-- The observable outcome of one script invocation: the JSON documents
printed to stdout, in order, and the process exit code. -/
structure Run where
  docs : List J
  exitCode : Nat

/-- Python `d.get(k, default)`: the value at `k` if `d` is a dict carrying
it, the default if `d` is a dict without it, and AttributeError otherwise
(only dicts have a get method among the values a backend can return). -/
def pyGet (d : J) (k : String) (default : J) : Except PyErr J :=
  match d with
  | .obj fs => .ok ((fs.lookup k).getD default)
  | _ => .error (.other "AttributeError")

/-- Python `d.items()`: the key-value pairs of a dict in insertion order;
AttributeError on anything that is not a dict. -/
def pyItems (d : J) : Except PyErr (List (String × J)) :=
  match d with
  | .obj fs => .ok fs
  | _ => .error (.other "AttributeError")

/-- Python `for x in v`: lists yield their elements, strings yield their
one-character substrings, dicts yield their keys, every other value raises
TypeError. -/
def pyIter (v : J) : Except PyErr (List J) :=
  match v with
  | .arr xs => .ok xs
  | .str s => .ok (s.toList.map (fun c => J.str (String.mk [c])))
  | .obj fs => .ok (fs.map (fun p => J.str p.1))
  | _ => .error (.other "TypeError")

/-- Consume a run of decimal digits: accumulated value, digit count, rest. -/
def parseDigitsAux : List Char → Nat → Nat → Nat × Nat × List Char
  | [], acc, n => (acc, n, [])
  | c :: cs, acc, n =>
    if c.isDigit then parseDigitsAux cs (acc * 10 + (c.toNat - 48)) (n + 1)
    else (acc, n, c :: cs)

/-- Model of Python float applied to a string: optional surrounding spaces,
optional sign, digits with an optional fractional part and an optional
decimal exponent.  The special literals inf and nan and embedded
underscores are outside the model (treated as parse failure), and values
are exact rationals rather than IEEE doubles; no claim below depends on
the value of a parsed string, only on whether parsing yields a float. -/
def parsePyFloat (s : String) : Option ℚ :=
  let cs0 := (s.toList.dropWhile (fun c => c == ' ')).reverse
  let cs1 := (cs0.dropWhile (fun c => c == ' ')).reverse
  let signAndRest : ℚ × List Char :=
    match cs1 with
    | '-' :: r => (-1, r)
    | '+' :: r => (1, r)
    | r => (1, r)
  let sign := signAndRest.1
  let (ip, ipn, cs2) := parseDigitsAux signAndRest.2 0 0
  let fracAndRest : Nat × Nat × List Char :=
    match cs2 with
    | '.' :: r => parseDigitsAux r 0 0
    | r => (0, 0, r)
  let (fp, fpn, cs3) := fracAndRest
  if ipn == 0 && fpn == 0 then none
  else
    let mant : ℚ := sign * ((ip : ℚ) + (fp : ℚ) / (10 ^ fpn))
    match cs3 with
    | [] => some mant
    | e :: r =>
      if e == 'e' || e == 'E' then
        let expAndRest : Bool × List Char :=
          match r with
          | '-' :: r2 => (true, r2)
          | '+' :: r2 => (false, r2)
          | r2 => (false, r2)
        let (ev, evn, r3) := parseDigitsAux expAndRest.2 0 0
        if evn == 0 || !r3.isEmpty then none
        else some (mant * (if expAndRest.1 then (1 : ℚ) / 10 ^ ev else 10 ^ ev))
      else none

/-- Python `float(v)`: ints, floats and bools convert to a float; strings
parse or raise ValueError; every other value raises TypeError. -/
def pyFloat (v : J) : Except PyErr J :=
  match v with
  | .int n => .ok (.float n)
  | .float q => .ok (.float q)
  | .bool b => .ok (.float (if b then 1 else 0))
  | .str s =>
    match parsePyFloat s with
    | some q => .ok (.float q)
    | none => .error (.other "ValueError")
  | _ => .error (.other "TypeError")

namespace FxEncoderDetect

/-- Environment of one fx_encoder_detect.py invocation: sys.argv, the
filesystem existence oracle behind Path.exists, the outcome of the
statement `from fx_encoder import FxEncoder`, and the backend oracle for
`FxEncoder.from_pretrained().analyze(path)`. -/
structure Env where
  argv : List String
  fileExists : String → Bool
  importStep : Except PyErr Unit
  analyze : String → Except PyErr J

/-- The loop at fx_encoder_detect.py lines 31 to 33: build one effect
object per (name, confidence) item, coercing confidence with float();
an exception abandons the whole loop with nothing emitted. -/
def normEffects : List (String × J) → Except PyErr (List J)
  | [] => .ok []
  | (name, conf) :: rest => do
    let c ← pyFloat conf
    let es ← normEffects rest
    pure (J.obj [("name", J.str name), ("confidence", c)] :: es)

/-- fx_encoder_detect.py lines 31 to 38: normalize the raw backend result
into the canonical output document. -/
def normalize (result : J) : Except PyErr J := do
  let effObj ← pyGet result "effects" (J.obj [])
  let items ← pyItems effObj
  let effects ← normEffects items
  let emb ← pyGet result "embeddings" (J.arr [])
  pure (J.obj [("effects", J.arr effects), ("embeddings", emb)])

/-- fx_encoder_detect.py main: argv check, existence check, backend call
inside try with an ImportError handler and a catch-all handler. -/
def main (env : Env) : Run :=
  match env.argv with
  | _ :: audioPath :: _ =>
    if !env.fileExists audioPath then
      ⟨[J.obj [("error", J.str ("File not found: " ++ audioPath))]], 1⟩
    else
      match (do env.importStep; let r ← env.analyze audioPath; normalize r) with
      | .ok doc => ⟨[doc], 0⟩
      | .error (.importError _) =>
        ⟨[J.obj [("error", J.str "fx_encoder not installed"),
            ("install", J.str "git clone https://github.com/SonyResearch/Fx-Encoder_PlusPlus && pip install -r requirements.txt")]], 1⟩
      | .error (.other m) => ⟨[J.obj [("error", J.str m)]], 1⟩
  | _ => ⟨[J.obj [("error", J.str "Usage: fx_encoder_detect.py <audio_file>")]], 1⟩

end FxEncoderDetect

namespace Llm2fxDetect

/-- Environment of one llm2fx_detect.py invocation: sys.argv, the
filesystem existence oracle, the outcome of `from llm2fx import
EffectPredictor`, and the backend oracle for
`EffectPredictor.from_pretrained().analyze_audio(path)`. -/
structure Env where
  argv : List String
  fileExists : String → Bool
  importStep : Except PyErr Unit
  analyzeAudio : String → Except PyErr J

/-- llm2fx_detect.py lines 32 to 36: the dict built for one raw
effect-chain entry, with get defaults "unknown", 0.5 and the empty dict. -/
def normEffect (effect : J) : Except PyErr J := do
  let name ← pyGet effect "type" (J.str "unknown")
  let conf ← pyGet effect "confidence" (J.float (1/2))
  let params ← pyGet effect "params" (J.obj [])
  pure (J.obj [("name", name), ("confidence", conf), ("parameters", params)])

/-- The loop at llm2fx_detect.py lines 31 to 36 over the iterated
effect-chain value; an exception abandons the loop with nothing emitted. -/
def normChain : List J → Except PyErr (List J)
  | [] => .ok []
  | e :: rest => do
    let d ← normEffect e
    let ds ← normChain rest
    pure (d :: ds)

/-- llm2fx_detect.py lines 30 to 41: normalize the raw backend result;
embeddings is the literal empty list. -/
def normalize (result : J) : Except PyErr J := do
  let chain ← pyGet result "effect_chain" (J.arr [])
  let entries ← pyIter chain
  let effects ← normChain entries
  pure (J.obj [("effects", J.arr effects), ("embeddings", J.arr [])])

/-- llm2fx_detect.py main; the ImportError handler binds the exception and
prints an error message built from it together with an install field. -/
def main (env : Env) : Run :=
  match env.argv with
  | _ :: audioPath :: _ =>
    if !env.fileExists audioPath then
      ⟨[J.obj [("error", J.str ("File not found: " ++ audioPath))]], 1⟩
    else
      match (do env.importStep; let r ← env.analyzeAudio audioPath; normalize r) with
      | .ok doc => ⟨[doc], 0⟩
      | .error (.importError m) =>
        ⟨[J.obj [("error", J.str ("Import failed: " ++ m)),
            ("install", J.str "pip install llm2fx-tools  # See: https://arxiv.org/abs/2512.01559")]], 1⟩
      | .error (.other m) => ⟨[J.obj [("error", J.str m)]], 1⟩
  | _ => ⟨[J.obj [("error", J.str "Usage: llm2fx_detect.py <audio_file>")]], 1⟩

end Llm2fxDetect

namespace OpenampDetect

/-- Environment of one openamp_detect.py invocation: sys.argv, the
filesystem existence oracle, the outcome of `import librosa` and
`from openamp import FxEncoder`, the decode oracle for
`librosa.load(path, sr=None)` whose samples and rate are opaque values,
and the backend oracle for `FxEncoder.from_pretrained().extract`. -/
structure Env where
  argv : List String
  fileExists : String → Bool
  importStep : Except PyErr Unit
  load : String → Except PyErr (J × J)
  extract : J → J → Except PyErr J

/-- The loop at openamp_detect.py lines 32 to 34, identical in shape to
the variant A loop (same float coercion). -/
def normEffects : List (String × J) → Except PyErr (List J)
  | [] => .ok []
  | (name, conf) :: rest => do
    let c ← pyFloat conf
    let es ← normEffects rest
    pure (J.obj [("name", J.str name), ("confidence", c)] :: es)

/-- openamp_detect.py lines 32 to 39: normalize the raw backend result;
the raw effect source is detected_effects and the raw embedding source is
encodings. -/
def normalize (result : J) : Except PyErr J := do
  let effObj ← pyGet result "detected_effects" (J.obj [])
  let items ← pyItems effObj
  let effects ← normEffects items
  let emb ← pyGet result "encodings" (J.arr [])
  pure (J.obj [("effects", J.arr effects), ("embeddings", emb)])

/-- openamp_detect.py main; the audio is decoded before the backend call,
all inside the same try block. -/
def main (env : Env) : Run :=
  match env.argv with
  | _ :: audioPath :: _ =>
    if !env.fileExists audioPath then
      ⟨[J.obj [("error", J.str ("File not found: " ++ audioPath))]], 1⟩
    else
      match (do
          env.importStep
          let p ← env.load audioPath
          let r ← env.extract p.1 p.2
          normalize r) with
      | .ok doc => ⟨[doc], 0⟩
      | .error (.importError m) =>
        ⟨[J.obj [("error", J.str ("Import failed: " ++ m)),
            ("install", J.str "pip install openamp librosa")]], 1⟩
      | .error (.other m) => ⟨[J.obj [("error", J.str m)]], 1⟩
  | _ => ⟨[J.obj [("error", J.str "Usage: openamp_detect.py <audio_file>")]], 1⟩

end OpenampDetect

/-- Whether a document has the success shape at the top level: effects and
embeddings keys present, no error key. -/
def isResultDoc (d : J) : Bool :=
  hasKey d "effects" && hasKey d "embeddings" && !(hasKey d "error")

/-- Whether a document has the error shape at the top level: an error key
and neither an effects key nor an embeddings key. -/
def isErrorDoc (d : J) : Bool :=
  hasKey d "error" && !(hasKey d "effects") && !(hasKey d "embeddings")

/-- Whether the field `k` of `e` exists and satisfies `p`. -/
def fieldIs (e : J) (k : String) (p : J → Bool) : Bool :=
  match getField e k with
  | some v => p v
  | none => false

/-- Whether one effect element has a string name and a numeric confidence. -/
def goodEffect (e : J) : Bool :=
  fieldIs e "name" isStr && fieldIs e "confidence" isNumber

/-- Whether the effects field of a document is an array all of whose
elements have a string name and a numeric confidence. -/
def goodEffects (doc : J) : Bool :=
  match getField doc "effects" with
  | some (.arr es) => es.all goodEffect
  | _ => false

/-- The success-document invariant claimed by the specification: typed
effects array, embeddings key present, no error key. -/
def goodDoc (doc : J) : Bool :=
  goodEffects doc && hasKey doc "embeddings" && !(hasKey doc "error")

/-- Weaker per-effect condition: every effect element carries name and
confidence keys, with no constraint on the types of their values. -/
def hasEffectFields (doc : J) : Bool :=
  match getField doc "effects" with
  | some (.arr es) => es.all (fun e => hasKey e "name" && hasKey e "confidence")
  | _ => false

/-- Whether every effect element of a document carries a confidence that
is specifically a Python float. -/
def confidencesAreFloats (doc : J) : Bool :=
  match getField doc "effects" with
  | some (.arr es) => es.all (fun e => fieldIs e "confidence" isFloat)
  | _ => false

theorem except_bind_ok {ε α β : Type} {x : Except ε α} {f : α → Except ε β} {b : β}
    (h : (x >>= f) = .ok b) : ∃ a, x = .ok a ∧ f a = .ok b := by
  cases x with
  | error e => simp [Bind.bind, Except.bind] at h
  | ok a => exact ⟨a, rfl, by simpa [Bind.bind, Except.bind] using h⟩

theorem pyFloat_ok {v c : J} (h : pyFloat v = .ok c) : ∃ q, c = J.float q := by
  cases v with
  | int n => simp [pyFloat] at h; exact ⟨_, h.symm⟩
  | float q => simp [pyFloat] at h; exact ⟨_, h.symm⟩
  | bool b => simp [pyFloat] at h; exact ⟨_, h.symm⟩
  | str s =>
    cases hp : parsePyFloat s with
    | none => simp [pyFloat, hp] at h
    | some q => simp [pyFloat, hp] at h; exact ⟨_, h.symm⟩
  | null => simp [pyFloat] at h
  | arr xs => simp [pyFloat] at h
  | obj fs => simp [pyFloat] at h

theorem pyGet_ok {d : J} {k : String} {dv v : J} (h : pyGet d k dv = .ok v) :
    ∃ fs, d = J.obj fs ∧ v = (fs.lookup k).getD dv := by
  cases d <;> simp [pyGet] at h
  case obj fs => exact ⟨fs, rfl, h.symm⟩

theorem pyItems_ok {d : J} {items : List (String × J)} (h : pyItems d = .ok items) :
    d = J.obj items := by
  cases d <;> simp [pyItems] at h
  case obj fs => rw [h]

namespace FxEncoderDetect

theorem fxLoop_ok : ∀ {items : List (String × J)} {es : List J},
    normEffects items = .ok es →
    ∀ e ∈ es, ∃ n q, e = J.obj [("name", J.str n), ("confidence", J.float q)] := by
  intro items
  induction items with
  | nil =>
    intro es h e he
    simp [normEffects] at h
    subst h
    simp at he
  | cons p rest ih =>
    intro es h e he
    obtain ⟨np, cp⟩ := p
    simp only [normEffects] at h
    obtain ⟨c, hc, h2⟩ := except_bind_ok h
    obtain ⟨tail, htail, h3⟩ := except_bind_ok h2
    simp [pure, Except.pure] at h3
    subst h3
    rcases List.mem_cons.mp he with rfl | hmem
    · obtain ⟨q, rfl⟩ := pyFloat_ok hc
      exact ⟨np, q, rfl⟩
    · exact ih htail e hmem

theorem fxNormalize_ok {r doc : J} (h : normalize r = .ok doc) :
    ∃ fs es, r = J.obj fs ∧
      doc = J.obj [("effects", J.arr es),
        ("embeddings", (fs.lookup "embeddings").getD (J.arr []))] ∧
      ∀ e ∈ es, ∃ n q, e = J.obj [("name", J.str n), ("confidence", J.float q)] := by
  unfold normalize at h
  obtain ⟨effObj, h1, hb⟩ := except_bind_ok h
  obtain ⟨items, h2, hc⟩ := except_bind_ok hb
  obtain ⟨effects, h3, hd⟩ := except_bind_ok hc
  obtain ⟨emb, h4, h5⟩ := except_bind_ok hd
  obtain ⟨fs, rfl, _⟩ := pyGet_ok h1
  obtain ⟨fs2, hfs2, hemb⟩ := pyGet_ok h4
  have hfs : fs = fs2 := by injection hfs2
  subst hfs
  subst hemb
  simp [pure, Except.pure] at h5
  exact ⟨fs, effects, rfl, h5.symm, fxLoop_ok h3⟩

theorem fxMain_cases (env : Env) :
    (∃ r doc, normalize r = .ok doc ∧ main env = ⟨[doc], 0⟩) ∨
    (∃ doc, main env = ⟨[doc], 1⟩ ∧ isErrorDoc doc = true) := by
  unfold main
  rcases henv : env.argv with _ | ⟨a, _ | ⟨b, rest⟩⟩
  · exact Or.inr ⟨_, rfl, rfl⟩
  · exact Or.inr ⟨_, rfl, rfl⟩
  · by_cases hfe : env.fileExists b
    · rcases hres : (do env.importStep; let r ← env.analyze b; normalize r) with pe | doc
      · cases pe with
        | importError m =>
          exact Or.inr ⟨J.obj [("error", J.str "fx_encoder not installed"),
            ("install", J.str "git clone https://github.com/SonyResearch/Fx-Encoder_PlusPlus && pip install -r requirements.txt")],
            by simp [hfe, hres], rfl⟩
        | other m =>
          exact Or.inr ⟨J.obj [("error", J.str m)], by simp [hfe, hres], rfl⟩
      · left
        obtain ⟨_, _, h2⟩ := except_bind_ok hres
        obtain ⟨r, _, h3⟩ := except_bind_ok h2
        exact ⟨r, doc, h3, by simp [hfe, hres]⟩
    · exact Or.inr ⟨J.obj [("error", J.str ("File not found: " ++ b))],
        by simp [hfe], rfl⟩

end FxEncoderDetect

namespace Llm2fxDetect

theorem normEffect_ok {e d : J} (h : normEffect e = .ok d) :
    ∃ fs, e = J.obj fs ∧
      d = J.obj [("name", (fs.lookup "type").getD (J.str "unknown")),
        ("confidence", (fs.lookup "confidence").getD (J.float (1/2))),
        ("parameters", (fs.lookup "params").getD (J.obj []))] := by
  unfold normEffect at h
  obtain ⟨name, h1, hb⟩ := except_bind_ok h
  obtain ⟨conf, h2, hc⟩ := except_bind_ok hb
  obtain ⟨params, h3, h4⟩ := except_bind_ok hc
  obtain ⟨fs, rfl, hn⟩ := pyGet_ok h1
  obtain ⟨fs2, hfs2, hcf⟩ := pyGet_ok h2
  obtain ⟨fs3, hfs3, hp⟩ := pyGet_ok h3
  have e2 : fs = fs2 := by injection hfs2
  have e3 : fs = fs3 := by injection hfs3
  subst e2 e3 hn hcf hp
  simp only [pure, Except.pure, Except.ok.injEq] at h4
  exact ⟨fs, rfl, h4.symm⟩

theorem normEffect_obj (fs : List (String × J)) :
    normEffect (J.obj fs) =
      .ok (J.obj [("name", (fs.lookup "type").getD (J.str "unknown")),
        ("confidence", (fs.lookup "confidence").getD (J.float (1/2))),
        ("parameters", (fs.lookup "params").getD (J.obj []))]) := rfl

theorem normChain_ok : ∀ {entries : List J} {ds : List J},
    normChain entries = .ok ds →
    ∀ d ∈ ds, ∃ n c p,
      d = J.obj [("name", n), ("confidence", c), ("parameters", p)] := by
  intro entries
  induction entries with
  | nil =>
    intro ds h d hd
    simp [normChain] at h
    subst h
    simp at hd
  | cons e rest ih =>
    intro ds h d hd
    simp only [normChain] at h
    obtain ⟨d1, hd1, h2⟩ := except_bind_ok h
    obtain ⟨tail, htail, h3⟩ := except_bind_ok h2
    simp [pure, Except.pure] at h3
    subst h3
    rcases List.mem_cons.mp hd with rfl | hmem
    · obtain ⟨fs, rfl, hshape⟩ := normEffect_ok hd1
      exact ⟨_, _, _, hshape⟩
    · exact ih htail d hmem

theorem llmNormalize_ok {r doc : J} (h : normalize r = .ok doc) :
    ∃ es, doc = J.obj [("effects", J.arr es), ("embeddings", J.arr [])] ∧
      ∀ d ∈ es, ∃ n c p,
        d = J.obj [("name", n), ("confidence", c), ("parameters", p)] := by
  unfold normalize at h
  obtain ⟨chain, h1, hb⟩ := except_bind_ok h
  obtain ⟨entries, h2, hc⟩ := except_bind_ok hb
  obtain ⟨effects, h3, h4⟩ := except_bind_ok hc
  simp [pure, Except.pure] at h4
  exact ⟨effects, h4.symm, normChain_ok h3⟩

theorem llmMain_cases (env : Env) :
    (∃ r doc, normalize r = .ok doc ∧ main env = ⟨[doc], 0⟩) ∨
    (∃ doc, main env = ⟨[doc], 1⟩ ∧ isErrorDoc doc = true) := by
  unfold main
  rcases henv : env.argv with _ | ⟨a, _ | ⟨b, rest⟩⟩
  · exact Or.inr ⟨_, rfl, rfl⟩
  · exact Or.inr ⟨_, rfl, rfl⟩
  · by_cases hfe : env.fileExists b
    · rcases hres : (do env.importStep; let r ← env.analyzeAudio b; normalize r) with pe | doc
      · cases pe with
        | importError m =>
          exact Or.inr ⟨J.obj [("error", J.str ("Import failed: " ++ m)),
            ("install", J.str "pip install llm2fx-tools  # See: https://arxiv.org/abs/2512.01559")],
            by simp [hfe, hres], rfl⟩
        | other m =>
          exact Or.inr ⟨J.obj [("error", J.str m)], by simp [hfe, hres], rfl⟩
      · left
        obtain ⟨_, _, h2⟩ := except_bind_ok hres
        obtain ⟨r, _, h3⟩ := except_bind_ok h2
        exact ⟨r, doc, h3, by simp [hfe, hres]⟩
    · exact Or.inr ⟨J.obj [("error", J.str ("File not found: " ++ b))],
        by simp [hfe], rfl⟩

end Llm2fxDetect

namespace OpenampDetect

theorem oaLoop_ok : ∀ {items : List (String × J)} {es : List J},
    normEffects items = .ok es →
    ∀ e ∈ es, ∃ n q, e = J.obj [("name", J.str n), ("confidence", J.float q)] := by
  intro items
  induction items with
  | nil =>
    intro es h e he
    simp [normEffects] at h
    subst h
    simp at he
  | cons p rest ih =>
    intro es h e he
    obtain ⟨np, cp⟩ := p
    simp only [normEffects] at h
    obtain ⟨c, hc, h2⟩ := except_bind_ok h
    obtain ⟨tail, htail, h3⟩ := except_bind_ok h2
    simp [pure, Except.pure] at h3
    subst h3
    rcases List.mem_cons.mp he with rfl | hmem
    · obtain ⟨q, rfl⟩ := pyFloat_ok hc
      exact ⟨np, q, rfl⟩
    · exact ih htail e hmem

theorem oaNormalize_ok {r doc : J} (h : normalize r = .ok doc) :
    ∃ fs es, r = J.obj fs ∧
      doc = J.obj [("effects", J.arr es),
        ("embeddings", (fs.lookup "encodings").getD (J.arr []))] ∧
      ∀ e ∈ es, ∃ n q, e = J.obj [("name", J.str n), ("confidence", J.float q)] := by
  unfold normalize at h
  obtain ⟨effObj, h1, hb⟩ := except_bind_ok h
  obtain ⟨items, h2, hc⟩ := except_bind_ok hb
  obtain ⟨effects, h3, hd⟩ := except_bind_ok hc
  obtain ⟨emb, h4, h5⟩ := except_bind_ok hd
  obtain ⟨fs, rfl, _⟩ := pyGet_ok h1
  obtain ⟨fs2, hfs2, hemb⟩ := pyGet_ok h4
  have hfs : fs = fs2 := by injection hfs2
  subst hfs
  subst hemb
  simp [pure, Except.pure] at h5
  exact ⟨fs, effects, rfl, h5.symm, oaLoop_ok h3⟩

theorem oaMain_cases (env : Env) :
    (∃ r doc, normalize r = .ok doc ∧ main env = ⟨[doc], 0⟩) ∨
    (∃ doc, main env = ⟨[doc], 1⟩ ∧ isErrorDoc doc = true) := by
  unfold main
  rcases henv : env.argv with _ | ⟨a, _ | ⟨b, rest⟩⟩
  · exact Or.inr ⟨_, rfl, rfl⟩
  · exact Or.inr ⟨_, rfl, rfl⟩
  · by_cases hfe : env.fileExists b
    · rcases hres : (do
          env.importStep
          let p ← env.load b
          let r ← env.extract p.1 p.2
          normalize r) with pe | doc
      · cases pe with
        | importError m =>
          exact Or.inr ⟨J.obj [("error", J.str ("Import failed: " ++ m)),
            ("install", J.str "pip install openamp librosa")],
            by simp [hfe, hres], rfl⟩
        | other m =>
          exact Or.inr ⟨J.obj [("error", J.str m)], by simp [hfe, hres], rfl⟩
      · left
        obtain ⟨_, _, h2⟩ := except_bind_ok hres
        obtain ⟨p, _, h3⟩ := except_bind_ok h2
        obtain ⟨r, _, h4⟩ := except_bind_ok h3
        exact ⟨r, doc, h4, by simp [hfe, hres]⟩
    · exact Or.inr ⟨J.obj [("error", J.str ("File not found: " ++ b))],
        by simp [hfe], rfl⟩

end OpenampDetect

theorem goodDoc_of_shape (es : List J) (emb : J)
    (h : ∀ e ∈ es, ∃ n q, e = J.obj [("name", J.str n), ("confidence", J.float q)]) :
    goodDoc (J.obj [("effects", J.arr es), ("embeddings", emb)]) = true := by
  have hg : goodDoc (J.obj [("effects", J.arr es), ("embeddings", emb)]) =
      (es.all goodEffect && true && !false) := rfl
  rw [hg, Bool.and_true, Bool.not_false, Bool.and_true, List.all_eq_true]
  intro e he
  obtain ⟨n, q, rfl⟩ := h e he
  rfl

theorem hasEffectFields_of_shape (es : List J) (emb : J)
    (h : ∀ d ∈ es, ∃ n c p, d = J.obj [("name", n), ("confidence", c), ("parameters", p)]) :
    hasEffectFields (J.obj [("effects", J.arr es), ("embeddings", emb)]) = true := by
  have hg : hasEffectFields (J.obj [("effects", J.arr es), ("embeddings", emb)]) =
      es.all (fun e => hasKey e "name" && hasKey e "confidence") := rfl
  rw [hg, List.all_eq_true]
  intro d hd
  obtain ⟨n, c, p, rfl⟩ := h d hd
  rfl

theorem confFloats_of_shape (es : List J) (emb : J)
    (h : ∀ e ∈ es, ∃ n q, e = J.obj [("name", J.str n), ("confidence", J.float q)]) :
    confidencesAreFloats (J.obj [("effects", J.arr es), ("embeddings", emb)]) = true := by
  have hg : confidencesAreFloats (J.obj [("effects", J.arr es), ("embeddings", emb)]) =
      es.all (fun e => fieldIs e "confidence" isFloat) := rfl
  rw [hg, List.all_eq_true]
  intro e he
  obtain ⟨n, q, rfl⟩ := h e he
  rfl

/-- C1 counterexample: the claim says a variant B raw entry without a
params key yields an EffectDetection with no parameters field.  On the
code, a backend result whose one effect-chain entry is a mapping with only
a type key produces a success document whose effect does carry a
parameters field, holding the empty mapping. -/
theorem C1_counterexample :
    Llm2fxDetect.main ⟨["llm2fx_detect.py", "song.wav"], fun _ => true, Except.ok (),
        fun _ => Except.ok (J.obj [("effect_chain",
          J.arr [J.obj [("type", J.str "reverb")]])])⟩ =
      ⟨[J.obj [("effects", J.arr [J.obj [("name", J.str "reverb"),
          ("confidence", J.float (1/2)), ("parameters", J.obj [])]]),
        ("embeddings", J.arr [])]], 0⟩ ∧
    hasKey (J.obj [("name", J.str "reverb"), ("confidence", J.float (1/2)),
        ("parameters", J.obj [])]) "parameters" = true :=
  ⟨rfl, rfl⟩

/-- C1 amended: for variant B, every raw effect-chain entry that is a
mapping without a params key yields an EffectDetection that does carry a
parameters field, set to the empty mapping; the field is never omitted. -/
theorem C1_amended_parameters (fs : List (String × J))
    (h : fs.lookup "params" = none) :
    ∃ name conf, Llm2fxDetect.normEffect (J.obj fs) =
      .ok (J.obj [("name", name), ("confidence", conf),
        ("parameters", J.obj [])]) :=
  ⟨(fs.lookup "type").getD (J.str "unknown"),
   (fs.lookup "confidence").getD (J.float (1/2)),
   by rw [Llm2fxDetect.normEffect_obj, h, Option.getD_none]⟩

/-- C1 witness: the amended statement applied to the concrete entry that
carries only a type key. -/
theorem C1_amended_parameters_witness :
    ([("type", J.str "reverb")] : List (String × J)).lookup "params" = none ∧
    ∃ name conf, Llm2fxDetect.normEffect (J.obj [("type", J.str "reverb")]) =
      .ok (J.obj [("name", name), ("confidence", conf),
        ("parameters", J.obj [])]) :=
  ⟨rfl, C1_amended_parameters [("type", J.str "reverb")] rfl⟩

/-- C2 counterexample: the claim says every adapter coerces confidence to
floating point.  On the code, variant B places the raw confidence value in
the output unchanged: an integer confidence 1 stays the integer 1 and is
not a float. -/
theorem C2_counterexample :
    Llm2fxDetect.main ⟨["llm2fx_detect.py", "song.wav"], fun _ => true, Except.ok (),
        fun _ => Except.ok (J.obj [("effect_chain",
          J.arr [J.obj [("type", J.str "reverb"), ("confidence", J.int 1)]])])⟩ =
      ⟨[J.obj [("effects", J.arr [J.obj [("name", J.str "reverb"),
          ("confidence", J.int 1), ("parameters", J.obj [])]]),
        ("embeddings", J.arr [])]], 0⟩ ∧
    isFloat (J.int 1) = false :=
  ⟨rfl, rfl⟩

/-- C2 amended: variants A and C coerce every confidence to floating
point (every successfully normalized document of theirs carries only
float confidences); variant B passes the raw confidence value through
uncoerced whenever the entry carries one. -/
theorem C2_amended_float_coercion :
    (∀ r doc, FxEncoderDetect.normalize r = .ok doc →
      confidencesAreFloats doc = true) ∧
    (∀ r doc, OpenampDetect.normalize r = .ok doc →
      confidencesAreFloats doc = true) ∧
    (∀ (fs : List (String × J)) (c : J), fs.lookup "confidence" = some c →
      ∃ n p, Llm2fxDetect.normEffect (J.obj fs) =
        .ok (J.obj [("name", n), ("confidence", c), ("parameters", p)])) := by
  refine ⟨?_, ?_, ?_⟩
  · intro r doc h
    obtain ⟨fs, es, _, rfl, hes⟩ := FxEncoderDetect.fxNormalize_ok h
    exact confFloats_of_shape es _ hes
  · intro r doc h
    obtain ⟨fs, es, _, rfl, hes⟩ := OpenampDetect.oaNormalize_ok h
    exact confFloats_of_shape es _ hes
  · intro fs c h
    exact ⟨(fs.lookup "type").getD (J.str "unknown"),
      (fs.lookup "params").getD (J.obj []),
      by rw [Llm2fxDetect.normEffect_obj, h, Option.getD_some]⟩

/-- C2 witness: the amended statement applied to one concrete input per
variant. -/
theorem C2_amended_float_coercion_witness :
    (FxEncoderDetect.normalize (J.obj [("effects", J.obj [("reverb", J.float (9/10))])]) =
      .ok (J.obj [("effects", J.arr [J.obj [("name", J.str "reverb"),
        ("confidence", J.float (9/10))]]), ("embeddings", J.arr [])]) ∧
     confidencesAreFloats (J.obj [("effects", J.arr [J.obj [("name", J.str "reverb"),
        ("confidence", J.float (9/10))]]), ("embeddings", J.arr [])]) = true) ∧
    (OpenampDetect.normalize (J.obj [("detected_effects", J.obj [("chorus", J.float (4/5))])]) =
      .ok (J.obj [("effects", J.arr [J.obj [("name", J.str "chorus"),
        ("confidence", J.float (4/5))]]), ("embeddings", J.arr [])]) ∧
     confidencesAreFloats (J.obj [("effects", J.arr [J.obj [("name", J.str "chorus"),
        ("confidence", J.float (4/5))]]), ("embeddings", J.arr [])]) = true) ∧
    ([("confidence", J.int 1)] : List (String × J)).lookup "confidence" = some (J.int 1) ∧
    (∃ n p, Llm2fxDetect.normEffect (J.obj [("confidence", J.int 1)]) =
      .ok (J.obj [("name", n), ("confidence", J.int 1), ("parameters", p)])) :=
  ⟨⟨rfl, C2_amended_float_coercion.1
      (J.obj [("effects", J.obj [("reverb", J.float (9/10))])]) _ rfl⟩,
   ⟨rfl, C2_amended_float_coercion.2.1
      (J.obj [("detected_effects", J.obj [("chorus", J.float (4/5))])]) _ rfl⟩,
   rfl,
   C2_amended_float_coercion.2.2 [("confidence", J.int 1)] (J.int 1) rfl⟩

/-- C3 counterexample: the claim says every successful invocation emits
effects whose elements have a string name and a numeric confidence.  On
the code, variant B copies the raw type value into name unchanged: a
backend entry whose type is the integer 42 yields a successful run whose
effect has the integer 42 as its name, which is not a string. -/
theorem C3_counterexample :
    Llm2fxDetect.main ⟨["llm2fx_detect.py", "song.wav"], fun _ => true, Except.ok (),
        fun _ => Except.ok (J.obj [("effect_chain", J.arr [J.obj [("type", J.int 42)]])])⟩ =
      ⟨[J.obj [("effects", J.arr [J.obj [("name", J.int 42),
          ("confidence", J.float (1/2)), ("parameters", J.obj [])]]),
        ("embeddings", J.arr [])]], 0⟩ ∧
    goodDoc (J.obj [("effects", J.arr [J.obj [("name", J.int 42),
        ("confidence", J.float (1/2)), ("parameters", J.obj [])]]),
      ("embeddings", J.arr [])]) = false :=
  ⟨rfl, rfl⟩

/-- C3 amended: every successful invocation of any adapter emits one
document with an effects key and an embeddings key and no error key,
effects an array each of whose elements carries a name field and a
confidence field; in variants A and C the name is moreover always a
string and the confidence always a number, while variant B copies the raw
type and confidence values through untyped. -/
theorem C3_amended_success_invariant :
    (∀ (env : FxEncoderDetect.Env) (docs : List J),
      FxEncoderDetect.main env = ⟨docs, 0⟩ →
      ∃ d, docs = [d] ∧ goodDoc d = true) ∧
    (∀ (env : OpenampDetect.Env) (docs : List J),
      OpenampDetect.main env = ⟨docs, 0⟩ →
      ∃ d, docs = [d] ∧ goodDoc d = true) ∧
    (∀ (env : Llm2fxDetect.Env) (docs : List J),
      Llm2fxDetect.main env = ⟨docs, 0⟩ →
      ∃ d, docs = [d] ∧ hasEffectFields d = true ∧
        hasKey d "embeddings" = true ∧ hasKey d "error" = false) := by
  refine ⟨?_, ?_, ?_⟩
  · intro env docs h
    rcases FxEncoderDetect.fxMain_cases env with ⟨r, doc, hnorm, hmain⟩ | ⟨doc, hmain, _⟩
    · have heq := hmain.symm.trans h
      injection heq with h1 h2
      obtain ⟨fs, es, -, hdoc, hes⟩ := FxEncoderDetect.fxNormalize_ok hnorm
      refine ⟨doc, h1.symm, ?_⟩
      rw [hdoc]
      exact goodDoc_of_shape es _ hes
    · have heq := hmain.symm.trans h
      injection heq with h1 h2
      exact absurd h2.symm Nat.zero_ne_one
  · intro env docs h
    rcases OpenampDetect.oaMain_cases env with ⟨r, doc, hnorm, hmain⟩ | ⟨doc, hmain, _⟩
    · have heq := hmain.symm.trans h
      injection heq with h1 h2
      obtain ⟨fs, es, -, hdoc, hes⟩ := OpenampDetect.oaNormalize_ok hnorm
      refine ⟨doc, h1.symm, ?_⟩
      rw [hdoc]
      exact goodDoc_of_shape es _ hes
    · have heq := hmain.symm.trans h
      injection heq with h1 h2
      exact absurd h2.symm Nat.zero_ne_one
  · intro env docs h
    rcases Llm2fxDetect.llmMain_cases env with ⟨r, doc, hnorm, hmain⟩ | ⟨doc, hmain, _⟩
    · have heq := hmain.symm.trans h
      injection heq with h1 h2
      obtain ⟨es, hdoc, hes⟩ := Llm2fxDetect.llmNormalize_ok hnorm
      refine ⟨doc, h1.symm, ?_, ?_, ?_⟩ <;> rw [hdoc]
      · exact hasEffectFields_of_shape es _ hes
      · rfl
      · rfl
    · have heq := hmain.symm.trans h
      injection heq with h1 h2
      exact absurd h2.symm Nat.zero_ne_one

/-- C3 witness: the amended statement applied to one concrete successful
run per adapter. -/
theorem C3_amended_success_invariant_witness :
    (FxEncoderDetect.main ⟨["fx_encoder_detect.py", "a.wav"], fun _ => true, Except.ok (),
        fun _ => Except.ok (J.obj [("effects", J.obj [("reverb", J.float (9/10))])])⟩ =
      ⟨[J.obj [("effects", J.arr [J.obj [("name", J.str "reverb"),
          ("confidence", J.float (9/10))]]), ("embeddings", J.arr [])]], 0⟩) ∧
    (∃ d, [J.obj [("effects", J.arr [J.obj [("name", J.str "reverb"),
          ("confidence", J.float (9/10))]]), ("embeddings", J.arr [])]] = [d] ∧
      goodDoc d = true) ∧
    (OpenampDetect.main ⟨["openamp_detect.py", "a.wav"], fun _ => true, Except.ok (),
        fun _ => Except.ok (J.null, J.null),
        fun _ _ => Except.ok (J.obj [("detected_effects", J.obj [("chorus", J.float (4/5))])])⟩ =
      ⟨[J.obj [("effects", J.arr [J.obj [("name", J.str "chorus"),
          ("confidence", J.float (4/5))]]), ("embeddings", J.arr [])]], 0⟩) ∧
    (∃ d, [J.obj [("effects", J.arr [J.obj [("name", J.str "chorus"),
          ("confidence", J.float (4/5))]]), ("embeddings", J.arr [])]] = [d] ∧
      goodDoc d = true) ∧
    (Llm2fxDetect.main ⟨["llm2fx_detect.py", "a.wav"], fun _ => true, Except.ok (),
        fun _ => Except.ok (J.obj [("effect_chain", J.arr [J.obj [("type", J.str "reverb")]])])⟩ =
      ⟨[J.obj [("effects", J.arr [J.obj [("name", J.str "reverb"),
          ("confidence", J.float (1/2)), ("parameters", J.obj [])]]),
        ("embeddings", J.arr [])]], 0⟩) ∧
    (∃ d, [J.obj [("effects", J.arr [J.obj [("name", J.str "reverb"),
          ("confidence", J.float (1/2)), ("parameters", J.obj [])]]),
        ("embeddings", J.arr [])]] = [d] ∧ hasEffectFields d = true ∧
      hasKey d "embeddings" = true ∧ hasKey d "error" = false) :=
  ⟨rfl, C3_amended_success_invariant.1
      ⟨["fx_encoder_detect.py", "a.wav"], fun _ => true, Except.ok (),
        fun _ => Except.ok (J.obj [("effects", J.obj [("reverb", J.float (9/10))])])⟩ _ rfl,
   rfl, C3_amended_success_invariant.2.1
      ⟨["openamp_detect.py", "a.wav"], fun _ => true, Except.ok (),
        fun _ => Except.ok (J.null, J.null),
        fun _ _ => Except.ok (J.obj [("detected_effects", J.obj [("chorus", J.float (4/5))])])⟩ _ rfl,
   rfl, C3_amended_success_invariant.2.2
      ⟨["llm2fx_detect.py", "a.wav"], fun _ => true, Except.ok (),
        fun _ => Except.ok (J.obj [("effect_chain", J.arr [J.obj [("type", J.str "reverb")]])])⟩ _ rfl⟩

/-- C4: every invocation of any adapter emits exactly one document, and
that document is either a DetectionResult (effects and embeddings keys,
no error key, exit code 0) or an ErrorDocument (error key, neither an
effects key nor an embeddings key, exit code 1), never both and never a
merged document; in particular a raise anywhere in the backend call or
the result mapping leaves only the error path to produce output. -/
theorem C4_exactly_one_document :
    (∀ env : FxEncoderDetect.Env, ∃ d, (FxEncoderDetect.main env).docs = [d] ∧
      (((FxEncoderDetect.main env).exitCode = 0 ∧ isResultDoc d = true) ∨
       ((FxEncoderDetect.main env).exitCode = 1 ∧ isErrorDoc d = true))) ∧
    (∀ env : Llm2fxDetect.Env, ∃ d, (Llm2fxDetect.main env).docs = [d] ∧
      (((Llm2fxDetect.main env).exitCode = 0 ∧ isResultDoc d = true) ∨
       ((Llm2fxDetect.main env).exitCode = 1 ∧ isErrorDoc d = true))) ∧
    (∀ env : OpenampDetect.Env, ∃ d, (OpenampDetect.main env).docs = [d] ∧
      (((OpenampDetect.main env).exitCode = 0 ∧ isResultDoc d = true) ∨
       ((OpenampDetect.main env).exitCode = 1 ∧ isErrorDoc d = true))) := by
  refine ⟨?_, ?_, ?_⟩
  · intro env
    rcases FxEncoderDetect.fxMain_cases env with ⟨r, doc, hnorm, hmain⟩ | ⟨doc, hmain, herr⟩
    · obtain ⟨fs, es, -, hdoc, -⟩ := FxEncoderDetect.fxNormalize_ok hnorm
      refine ⟨doc, by rw [hmain], Or.inl ⟨by rw [hmain], ?_⟩⟩
      rw [hdoc]
      rfl
    · exact ⟨doc, by rw [hmain], Or.inr ⟨by rw [hmain], herr⟩⟩
  · intro env
    rcases Llm2fxDetect.llmMain_cases env with ⟨r, doc, hnorm, hmain⟩ | ⟨doc, hmain, herr⟩
    · obtain ⟨es, hdoc, -⟩ := Llm2fxDetect.llmNormalize_ok hnorm
      refine ⟨doc, by rw [hmain], Or.inl ⟨by rw [hmain], ?_⟩⟩
      rw [hdoc]
      rfl
    · exact ⟨doc, by rw [hmain], Or.inr ⟨by rw [hmain], herr⟩⟩
  · intro env
    rcases OpenampDetect.oaMain_cases env with ⟨r, doc, hnorm, hmain⟩ | ⟨doc, hmain, herr⟩
    · obtain ⟨fs, es, -, hdoc, -⟩ := OpenampDetect.oaNormalize_ok hnorm
      refine ⟨doc, by rw [hmain], Or.inl ⟨by rw [hmain], ?_⟩⟩
      rw [hdoc]
      rfl
    · exact ⟨doc, by rw [hmain], Or.inr ⟨by rw [hmain], herr⟩⟩

/-- C5: on every adapter, an invocation whose path argument names no
existing filesystem entry prints the single ErrorDocument whose error
message is the text File not found followed by the path, and exits 1;
the outcome is the same whatever the import and backend oracles do, so
no backend is invoked and no DetectionResult can be produced. -/
theorem C5_file_not_found (a path : String) (rest : List String)
    (fe : String → Bool)
    (impA : Except PyErr Unit) (anA : String → Except PyErr J)
    (impB : Except PyErr Unit) (anB : String → Except PyErr J)
    (impC : Except PyErr Unit) (loadC : String → Except PyErr (J × J))
    (extC : J → J → Except PyErr J)
    (h : fe path = false) :
    FxEncoderDetect.main ⟨a :: path :: rest, fe, impA, anA⟩ =
      ⟨[J.obj [("error", J.str ("File not found: " ++ path))]], 1⟩ ∧
    Llm2fxDetect.main ⟨a :: path :: rest, fe, impB, anB⟩ =
      ⟨[J.obj [("error", J.str ("File not found: " ++ path))]], 1⟩ ∧
    OpenampDetect.main ⟨a :: path :: rest, fe, impC, loadC, extC⟩ =
      ⟨[J.obj [("error", J.str ("File not found: " ++ path))]], 1⟩ := by
  refine ⟨?_, ?_, ?_⟩ <;>
    simp [FxEncoderDetect.main, Llm2fxDetect.main, OpenampDetect.main, h]

/-- C5 witness: the missing.wav scenario on all three adapters, with a
filesystem on which no path exists. -/
theorem C5_file_not_found_witness :
    ((fun _ => false : String → Bool) "missing.wav" = false) ∧
    (FxEncoderDetect.main ⟨["prog", "missing.wav"], fun _ => false,
        Except.ok (), fun _ => Except.ok J.null⟩ =
      ⟨[J.obj [("error", J.str ("File not found: " ++ "missing.wav"))]], 1⟩ ∧
     Llm2fxDetect.main ⟨["prog", "missing.wav"], fun _ => false,
        Except.ok (), fun _ => Except.ok J.null⟩ =
      ⟨[J.obj [("error", J.str ("File not found: " ++ "missing.wav"))]], 1⟩ ∧
     OpenampDetect.main ⟨["prog", "missing.wav"], fun _ => false,
        Except.ok (), fun _ => Except.ok (J.null, J.null), fun _ _ => Except.ok J.null⟩ =
      ⟨[J.obj [("error", J.str ("File not found: " ++ "missing.wav"))]], 1⟩) :=
  ⟨rfl, C5_file_not_found "prog" "missing.wav" [] (fun _ => false)
      (Except.ok ()) (fun _ => Except.ok J.null)
      (Except.ok ()) (fun _ => Except.ok J.null)
      (Except.ok ()) (fun _ => Except.ok (J.null, J.null)) (fun _ _ => Except.ok J.null)
      rfl⟩

/-- C6: on every adapter, when the path argument exists and the import of
the external detection capability fails with an ImportError, the run
prints a single ErrorDocument carrying both an error field and an install
field and exits 1; on variant A the error field is exactly the text
fx_encoder not installed. -/
theorem C6_import_error (a path m : String) (rest : List String)
    (fe : String → Bool)
    (anA : String → Except PyErr J) (anB : String → Except PyErr J)
    (loadC : String → Except PyErr (J × J)) (extC : J → J → Except PyErr J)
    (h : fe path = true) :
    FxEncoderDetect.main ⟨a :: path :: rest, fe, .error (.importError m), anA⟩ =
      ⟨[J.obj [("error", J.str "fx_encoder not installed"),
        ("install", J.str "git clone https://github.com/SonyResearch/Fx-Encoder_PlusPlus && pip install -r requirements.txt")]], 1⟩ ∧
    Llm2fxDetect.main ⟨a :: path :: rest, fe, .error (.importError m), anB⟩ =
      ⟨[J.obj [("error", J.str ("Import failed: " ++ m)),
        ("install", J.str "pip install llm2fx-tools  # See: https://arxiv.org/abs/2512.01559")]], 1⟩ ∧
    OpenampDetect.main ⟨a :: path :: rest, fe, .error (.importError m), loadC, extC⟩ =
      ⟨[J.obj [("error", J.str ("Import failed: " ++ m)),
        ("install", J.str "pip install openamp librosa")]], 1⟩ := by
  refine ⟨?_, ?_, ?_⟩ <;>
    simp [FxEncoderDetect.main, Llm2fxDetect.main, OpenampDetect.main, h,
      Bind.bind, Except.bind]

/-- C6 witness: an existing file together with a failing import on each
adapter. -/
theorem C6_import_error_witness :
    ((fun _ => true : String → Bool) "song.wav" = true) ∧
    (FxEncoderDetect.main ⟨["prog", "song.wav"], fun _ => true,
        .error (.importError "No module named fx_encoder"), fun _ => Except.ok J.null⟩ =
      ⟨[J.obj [("error", J.str "fx_encoder not installed"),
        ("install", J.str "git clone https://github.com/SonyResearch/Fx-Encoder_PlusPlus && pip install -r requirements.txt")]], 1⟩ ∧
     Llm2fxDetect.main ⟨["prog", "song.wav"], fun _ => true,
        .error (.importError "No module named fx_encoder"), fun _ => Except.ok J.null⟩ =
      ⟨[J.obj [("error", J.str ("Import failed: " ++ "No module named fx_encoder")),
        ("install", J.str "pip install llm2fx-tools  # See: https://arxiv.org/abs/2512.01559")]], 1⟩ ∧
     OpenampDetect.main ⟨["prog", "song.wav"], fun _ => true,
        .error (.importError "No module named fx_encoder"),
        fun _ => Except.ok (J.null, J.null), fun _ _ => Except.ok J.null⟩ =
      ⟨[J.obj [("error", J.str ("Import failed: " ++ "No module named fx_encoder")),
        ("install", J.str "pip install openamp librosa")]], 1⟩) :=
  ⟨rfl, C6_import_error "prog" "song.wav" "No module named fx_encoder" []
      (fun _ => true) (fun _ => Except.ok J.null) (fun _ => Except.ok J.null)
      (fun _ => Except.ok (J.null, J.null)) (fun _ _ => Except.ok J.null) rfl⟩

/-- C7: for variant B every raw effect-chain entry that is a mapping
without a confidence key yields an EffectDetection whose confidence is
exactly the float 0.5; and the concrete scenario of the specification: a
backend result whose single entry carries type reverb and a params
mapping with decay 0.3 produces the expected document, exit code 0. -/
theorem C7_confidence_default :
    (∀ fs : List (String × J), fs.lookup "confidence" = none →
      ∃ n p, Llm2fxDetect.normEffect (J.obj fs) =
        .ok (J.obj [("name", n), ("confidence", J.float (1/2)),
          ("parameters", p)])) ∧
    Llm2fxDetect.main ⟨["llm2fx_detect.py", "song.wav"], fun _ => true, Except.ok (),
        fun _ => Except.ok (J.obj [("effect_chain", J.arr [J.obj [("type", J.str "reverb"),
          ("params", J.obj [("decay", J.float (3/10))])]])])⟩ =
      ⟨[J.obj [("effects", J.arr [J.obj [("name", J.str "reverb"),
          ("confidence", J.float (1/2)),
          ("parameters", J.obj [("decay", J.float (3/10))])]]),
        ("embeddings", J.arr [])]], 0⟩ :=
  ⟨fun fs h => ⟨(fs.lookup "type").getD (J.str "unknown"),
      (fs.lookup "params").getD (J.obj []),
      by rw [Llm2fxDetect.normEffect_obj, h, Option.getD_none]⟩,
   rfl⟩

/-- C7 witness: the first conjunct applied to the concrete entry of the
scenario, whose mapping has no confidence key. -/
theorem C7_confidence_default_witness :
    ([("type", J.str "reverb"), ("params", J.obj [("decay", J.float (3/10))])]
        : List (String × J)).lookup "confidence" = none ∧
    (∃ n p, Llm2fxDetect.normEffect (J.obj [("type", J.str "reverb"),
        ("params", J.obj [("decay", J.float (3/10))])]) =
      .ok (J.obj [("name", n), ("confidence", J.float (1/2)),
        ("parameters", p)])) :=
  ⟨rfl, C7_confidence_default.1
    [("type", J.str "reverb"), ("params", J.obj [("decay", J.float (3/10))])] rfl⟩

/-- C8: the canonical embeddings field per variant: every successful
variant A normalization copies the raw embeddings field (empty array when
absent), every successful variant C normalization copies the raw
encodings field (empty array when absent), and every successful variant B
normalization emits the empty array. -/
theorem C8_embeddings_source :
    (∀ r doc, FxEncoderDetect.normalize r = .ok doc → ∃ fs, r = J.obj fs ∧
      getField doc "embeddings" = some ((fs.lookup "embeddings").getD (J.arr []))) ∧
    (∀ r doc, OpenampDetect.normalize r = .ok doc → ∃ fs, r = J.obj fs ∧
      getField doc "embeddings" = some ((fs.lookup "encodings").getD (J.arr []))) ∧
    (∀ r doc, Llm2fxDetect.normalize r = .ok doc →
      getField doc "embeddings" = some (J.arr [])) := by
  refine ⟨?_, ?_, ?_⟩
  · intro r doc h
    obtain ⟨fs, es, hr, hdoc, -⟩ := FxEncoderDetect.fxNormalize_ok h
    exact ⟨fs, hr, by rw [hdoc]; rfl⟩
  · intro r doc h
    obtain ⟨fs, es, hr, hdoc, -⟩ := OpenampDetect.oaNormalize_ok h
    exact ⟨fs, hr, by rw [hdoc]; rfl⟩
  · intro r doc h
    obtain ⟨es, hdoc, -⟩ := Llm2fxDetect.llmNormalize_ok h
    rw [hdoc]
    rfl

/-- C8 witness: one concrete successful normalization per variant; the
variant A and C backends here return no raw embedding field at all, so
the canonical embeddings comes out as the empty array. -/
theorem C8_embeddings_source_witness :
    (∃ fs, (J.obj [("effects", J.obj [("reverb", J.float (9/10))])] : J) = J.obj fs ∧
      getField (J.obj [("effects", J.arr [J.obj [("name", J.str "reverb"),
          ("confidence", J.float (9/10))]]), ("embeddings", J.arr [])]) "embeddings" =
        some ((fs.lookup "embeddings").getD (J.arr []))) ∧
    (∃ fs, (J.obj [("detected_effects", J.obj [("chorus", J.float (4/5))])] : J) = J.obj fs ∧
      getField (J.obj [("effects", J.arr [J.obj [("name", J.str "chorus"),
          ("confidence", J.float (4/5))]]), ("embeddings", J.arr [])]) "embeddings" =
        some ((fs.lookup "encodings").getD (J.arr []))) ∧
    getField (J.obj [("effects", J.arr []), ("embeddings", J.arr [])]) "embeddings" =
      some (J.arr []) :=
  ⟨C8_embeddings_source.1 (J.obj [("effects", J.obj [("reverb", J.float (9/10))])]) _ rfl,
   C8_embeddings_source.2.1 (J.obj [("detected_effects", J.obj [("chorus", J.float (4/5))])]) _ rfl,
   C8_embeddings_source.2.2 (J.obj []) _ rfl⟩

/-- C9: on every adapter, an invocation whose argv carries no path
argument prints the single usage ErrorDocument, which names the expected
invocation form and has no install field, and exits 1; the outcome does
not depend on the filesystem oracle or on the import and backend oracles,
so no filesystem check and no backend call occurs. -/
theorem C9_usage (argv : List String)
    (feA feB feC : String → Bool)
    (impA impB impC : Except PyErr Unit)
    (anA : String → Except PyErr J) (anB : String → Except PyErr J)
    (loadC : String → Except PyErr (J × J)) (extC : J → J → Except PyErr J)
    (h : argv.length < 2) :
    FxEncoderDetect.main ⟨argv, feA, impA, anA⟩ =
      ⟨[J.obj [("error", J.str "Usage: fx_encoder_detect.py <audio_file>")]], 1⟩ ∧
    Llm2fxDetect.main ⟨argv, feB, impB, anB⟩ =
      ⟨[J.obj [("error", J.str "Usage: llm2fx_detect.py <audio_file>")]], 1⟩ ∧
    OpenampDetect.main ⟨argv, feC, impC, loadC, extC⟩ =
      ⟨[J.obj [("error", J.str "Usage: openamp_detect.py <audio_file>")]], 1⟩ := by
  match argv with
  | [] => exact ⟨rfl, rfl, rfl⟩
  | [a] => exact ⟨rfl, rfl, rfl⟩
  | a :: b :: t => simp at h; omega

/-- C9 witness: the empty argv on all three adapters. -/
theorem C9_usage_witness :
    ([] : List String).length < 2 ∧
    (FxEncoderDetect.main ⟨[], fun _ => true, Except.ok (), fun _ => Except.ok J.null⟩ =
      ⟨[J.obj [("error", J.str "Usage: fx_encoder_detect.py <audio_file>")]], 1⟩ ∧
     Llm2fxDetect.main ⟨[], fun _ => true, Except.ok (), fun _ => Except.ok J.null⟩ =
      ⟨[J.obj [("error", J.str "Usage: llm2fx_detect.py <audio_file>")]], 1⟩ ∧
     OpenampDetect.main ⟨[], fun _ => true, Except.ok (),
        fun _ => Except.ok (J.null, J.null), fun _ _ => Except.ok J.null⟩ =
      ⟨[J.obj [("error", J.str "Usage: openamp_detect.py <audio_file>")]], 1⟩) :=
  ⟨by decide, C9_usage [] (fun _ => true) (fun _ => true) (fun _ => true)
      (Except.ok ()) (Except.ok ()) (Except.ok ())
      (fun _ => Except.ok J.null) (fun _ => Except.ok J.null)
      (fun _ => Except.ok (J.null, J.null)) (fun _ _ => Except.ok J.null)
      (by decide)⟩

/-- C10: for variant B every raw effect-chain entry that is a mapping
without a type key still yields an EffectDetection, whose name is the
literal string unknown; and a whole-run check that the empty mapping as
an entry is neither skipped nor an error. -/
theorem C10_missing_type_unknown :
    (∀ fs : List (String × J), fs.lookup "type" = none →
      ∃ c p, Llm2fxDetect.normEffect (J.obj fs) =
        .ok (J.obj [("name", J.str "unknown"), ("confidence", c),
          ("parameters", p)])) ∧
    Llm2fxDetect.main ⟨["llm2fx_detect.py", "song.wav"], fun _ => true, Except.ok (),
        fun _ => Except.ok (J.obj [("effect_chain", J.arr [J.obj []])])⟩ =
      ⟨[J.obj [("effects", J.arr [J.obj [("name", J.str "unknown"),
          ("confidence", J.float (1/2)), ("parameters", J.obj [])]]),
        ("embeddings", J.arr [])]], 0⟩ :=
  ⟨fun fs h => ⟨(fs.lookup "confidence").getD (J.float (1/2)),
      (fs.lookup "params").getD (J.obj []),
      by rw [Llm2fxDetect.normEffect_obj, h, Option.getD_none]⟩,
   rfl⟩

/-- C10 witness: the first conjunct applied to the empty mapping. -/
theorem C10_missing_type_unknown_witness :
    ([] : List (String × J)).lookup "type" = none ∧
    (∃ c p, Llm2fxDetect.normEffect (J.obj []) =
      .ok (J.obj [("name", J.str "unknown"), ("confidence", c),
        ("parameters", p)])) :=
  ⟨rfl, C10_missing_type_unknown.1 [] rfl⟩
